import Mathlib

/-!
Verification of the PyDocEnhancer documentation pipeline
(`src/pydocenhancer/core.py`), shallowly embedded in Lean.

Python strings are modelled as `String`, Python `None`-able strings as
`Option String`, raised exceptions as `Except PyErr`, the filesystem as an
association list, and the three external effectful collaborators
(`ast.parse`, the LLM backends reached through `_llm`, and `exec`) as
oracle functions supplied as parameters.
-/

namespace PyDocEnhancer

/-! ## Python string primitives

Character-list implementations of the `str` methods the source uses
(`splitlines`, `strip`, `startswith`, `in`, `join`), kept executable so that
concrete runs reduce inside the kernel.  Whitespace is modelled by
`Char.isWhitespace`. -/

/-- Split a character list on a separator character; always returns at least
one (possibly empty) group. -/
def splitOnChar (sep : Char) : List Char → List (List Char)
  | [] => [[]]
  | c :: rest =>
    if c = sep then [] :: splitOnChar sep rest
    else
      match splitOnChar sep rest with
      | [] => [[c]]
      | g :: gs => (c :: g) :: gs

/-- Python `str.splitlines()` restricted to `\n` separators: like splitting
on newlines, but a trailing newline produces no final empty line and the
empty string has no lines. -/
def pySplitlines (s : String) : List String :=
  let gs := splitOnChar (Char.ofNat 10) s.data
  let gs2 := if gs.getLast? = some [] then gs.dropLast else gs
  gs2.map String.mk

/-- Python `str.strip()` on a character list: drop leading and trailing
whitespace. -/
def pyStripChars (cs : List Char) : List Char :=
  ((cs.dropWhile Char.isWhitespace).reverse.dropWhile Char.isWhitespace).reverse

/-- Python `str.strip()`. -/
def pyStrip (s : String) : String :=
  String.mk (pyStripChars s.data)

/-- Python `s.startswith(pre)`. -/
def pyStartsWith (s pre : String) : Bool :=
  List.isPrefixOf pre.data s.data

/-- Substring test on character lists: does `needle` occur contiguously in
the second list? -/
def infixOfChars (needle : List Char) : List Char → Bool
  | [] => needle.isEmpty
  | c :: rest => List.isPrefixOf needle (c :: rest) || infixOfChars needle rest

/-- Python `needle in hay` for strings. -/
def pyContains (needle hay : String) : Bool :=
  infixOfChars needle.data hay.data

/-- Python `sep.join(xs)`. -/
def pyJoin (sep : String) : List String → String
  | [] => ""
  | [s] => s
  | s :: rest => s ++ sep ++ pyJoin sep rest

/-- Python `x or d` for an optional string `x`: `None` and the empty string
both fall through to the default. -/
def pyOr (o : Option String) (d : String) : String :=
  match o with
  | none => d
  | some s => if s = "" then d else s

/-- Python truthiness of an optional string (used by `if example:`):
`None` and `""` are falsy. -/
def pyTruthyOpt (o : Option String) : Bool :=
  match o with
  | none => false
  | some s => s != ""

/-- Python f-string rendering of an optional string: `None` prints as
`"None"`. -/
def pyStrOfOpt (o : Option String) : String :=
  match o with
  | none => "None"
  | some s => s

/-! ## Example Detector (`DocEnhancer.extract_example_from_docstring`) -/

/-- The triple-quote test of line 175 of `core.py`:
`line.strip().startswith('"""') or line.strip().startswith("'''")`. -/
def tripleQuoteStart (line : String) : Bool :=
  pyStartsWith (pyStrip line) "\"\"\"" || pyStartsWith (pyStrip line) "\x27\x27\x27"

/-- The `for line in lines` loop of `extract_example_from_docstring`
(lines 168-177 of `core.py`), carrying the `in_example` flag.  A line
containing `"Example"` always (re)sets the flag and is skipped (`continue`);
once the flag is set, blank lines and `>>>` lines are skipped, a
triple-quote line breaks the loop, and every other line is collected. -/
def exampleLoop : List String → Bool → List String
  | [], _ => []
  | line :: rest, in_example =>
    if pyContains "Example" line then exampleLoop rest true
    else if in_example then
      if pyStrip line == "" || pyStartsWith (pyStrip line) ">>>" then
        exampleLoop rest true
      else if tripleQuoteStart line then []
      else line :: exampleLoop rest true
    else exampleLoop rest false

/-- Model of `DocEnhancer.extract_example_from_docstring` (lines 162-178 of
`core.py`): run the line loop, then
`return '\n'.join(example_lines).strip() if example_lines else None`. -/
def extract_example_from_docstring (docstring : String) : Option String :=
  let example_lines := exampleLoop (pySplitlines docstring) false
  if example_lines.isEmpty then none
  else some (pyStrip (pyJoin "\n" example_lines))

/-- A line at which the loop of `extract_example_from_docstring` breaks:
it does not contain `"Example"`, is neither blank nor a `>>>` prompt line,
and starts (after stripping) with a triple quote. -/
def stopLine (line : String) : Bool :=
  !(pyContains "Example" line) &&
    !(pyStrip line == "" || pyStartsWith (pyStrip line) ">>>") &&
    tripleQuoteStart line

/-- A line the loop of `extract_example_from_docstring` collects: it does
not contain `"Example"`, is neither blank nor a `>>>` prompt line, and does
not start with a triple quote. -/
def keepLine (line : String) : Bool :=
  !(pyContains "Example" line) &&
    !(pyStrip line == "" || pyStartsWith (pyStrip line) ">>>") &&
    !(tripleQuoteStart line)

/-- Declarative restatement of the extraction heuristic actually
implemented: drop everything up to and including the first line containing
`"Example"`; take the remaining lines up to the first `stopLine`; keep the
`keepLine`s among them; join with newlines and strip; yield `none` when no
line was collected. -/
def amendedExtractExample (d : String) : Option String :=
  let lines := pySplitlines d
  let rest := (lines.dropWhile (fun l => !(pyContains "Example" l))).drop 1
  let el := (rest.takeWhile (fun l => !(stopLine l))).filter keepLine
  if el.isEmpty then none
  else some (pyStrip (pyJoin "\n" el))

/-- Modelled from the spec's words (claim C5), for comparison with the
implementation: once a line containing `"Example"` has been seen, every
subsequent line is collected except blank lines and lines beginning with
`>>>`, and collection stops at a line beginning with a triple quote. -/
def claimedExtractExample (d : String) : Option String :=
  let lines := pySplitlines d
  let rest := (lines.dropWhile (fun l => !(pyContains "Example" l))).drop 1
  let el := (rest.takeWhile (fun l => !(tripleQuoteStart l))).filter
    (fun l => !(pyStrip l == "" || pyStartsWith (pyStrip l) ">>>"))
  if el.isEmpty then none
  else some (pyStrip (pyJoin "\n" el))

/-! ## Example Runner (`DocEnhancer.test_example_code`)

`exec(code, {})` is an external effect; it is modelled by an oracle mapping
the executed text to one of its three possible outcomes: normal termination
with the text printed to the captured standard output, an `Exception`-class
failure with its message, or a raise whose class derives from
`BaseException` but not `Exception` (`SystemExit` from `sys.exit()`,
`KeyboardInterrupt`).  The `except Exception` at line 190 of `core.py`
catches only the second kind; the third propagates out of
`test_example_code` unhandled, which the model renders as `Except.error`. -/

/-- Outcome of `exec` on the example text, as observed by
`test_example_code`. -/
inductive ExecResult where
  | ok (output : String)
  | exn (msg : String)
  | baseExn (msg : String)
deriving DecidableEq, Repr

/-- Model of `DocEnhancer.test_example_code` (lines 180-191 of `core.py`):
falsy code (`None` or `""`) yields the sentinel; otherwise the example is
executed and the captured output or the `Exception` message is reported as
a string, while a `BaseException` raise escapes the `except Exception`
handler and propagates (`Except.error`). -/
def test_example_code (execO : String → ExecResult) (code : Option String) :
    Except String String :=
  match code with
  | none => .ok "No example to test."
  | some c =>
    if c = "" then .ok "No example to test."
    else
      match execO c with
      | .ok out => .ok ("Success. Output:\n" ++ out)
      | .exn m => .ok ("Error: " ++ m)
      | .baseExn m => .error m

/-! ## The Python AST (`ast` stdlib), as far as `parse_module` consumes it

`parse_module` only distinguishes `ast.FunctionDef` nodes from everything
else, reads a node's name and docstring, and unparses it; the model keeps
the node kinds the claims mention (plain and async function definitions,
class definitions, lambdas and a few body fillers).  `ast.get_docstring`
(an stdlib call) is modelled as a field holding its result: the cleaned
leading string constant of the body, or `None`. -/

inductive PyExpr where
  | lambdaE (body : PyExpr)
  | nameE (id : String)
  | constE

inductive PyStmt where
  | functionDef (name : String) (docstring : Option String) (body : List PyStmt)
  | asyncFunctionDef (name : String) (docstring : Option String) (body : List PyStmt)
  | classDef (name : String) (body : List PyStmt)
  | exprStmt (e : PyExpr)
  | passStmt
  | returnStmt

structure PyModule where
  body : List PyStmt

/-- A node of the tree as `ast.walk` sees it: the module root, a statement,
or an expression. -/
inductive Node where
  | mod (m : PyModule)
  | stmt (s : PyStmt)
  | expr (e : PyExpr)

/-- Number of nodes of an expression subtree. -/
def exprW : PyExpr → Nat
  | .lambdaE b => 1 + exprW b
  | .nameE _ => 1
  | .constE => 1

mutual

/-- Number of nodes of a statement subtree. -/
def stmtW : PyStmt → Nat
  | .functionDef _ _ body => 1 + stmtListW body
  | .asyncFunctionDef _ _ body => 1 + stmtListW body
  | .classDef _ body => 1 + stmtListW body
  | .exprStmt e => 1 + exprW e
  | .passStmt => 1
  | .returnStmt => 1

/-- Total number of nodes of a list of statement subtrees. -/
def stmtListW : List PyStmt → Nat
  | [] => 0
  | s :: rest => stmtW s + stmtListW rest

end

/-- Number of nodes of a subtree. -/
def nodeW : Node → Nat
  | .mod m => 1 + stmtListW m.body
  | .stmt s => stmtW s
  | .expr e => exprW e

/-- Model of `ast.iter_child_nodes`: the direct children of a node. -/
def children : Node → List Node
  | .mod m => m.body.map Node.stmt
  | .stmt (.functionDef _ _ b) => b.map Node.stmt
  | .stmt (.asyncFunctionDef _ _ b) => b.map Node.stmt
  | .stmt (.classDef _ b) => b.map Node.stmt
  | .stmt (.exprStmt e) => [Node.expr e]
  | .stmt .passStmt => []
  | .stmt .returnStmt => []
  | .expr (.lambdaE b) => [Node.expr b]
  | .expr (.nameE _) => []
  | .expr .constE => []

/-- The queue loop of `ast.walk` (pop the front, append the children,
yield the popped node), fuelled so the recursion is structural; the fuel
`astWalk` supplies is exactly the number of nodes, which is exactly the
number of pops performed, so the `0` branch is never reached
(`walkGo_fuel_irrelevant` below makes this precise). -/
def walkGo : Nat → List Node → List Node
  | _, [] => []
  | 0, q => q
  | fuel + 1, n :: rest => n :: walkGo fuel (rest ++ children n)

/-- Model of `ast.walk(tree)` for a module tree: breadth-first, root first. -/
def astWalk (m : PyModule) : List Node :=
  walkGo (nodeW (Node.mod m)) [Node.mod m]

/-- The `isinstance(node, ast.FunctionDef)` test of line 119 of `core.py`:
only plain `def` statements pass. -/
def isFunctionDefNode : Node → Bool
  | .stmt (.functionDef _ _ _) => true
  | _ => false

/-- Select a walked node if and only if it is an `ast.FunctionDef`. -/
def nodeFunctionDef : Node → Option PyStmt
  | .stmt (.functionDef name doc body) => some (.functionDef name doc body)
  | _ => none

/-- The function-definition nodes encountered by the
`for node in ast.walk(tree)` loop, in walk order. -/
def collectFunctionDefs (m : PyModule) : List PyStmt :=
  (astWalk m).filterMap nodeFunctionDef

/-- How many nodes of the walk are `ast.FunctionDef` nodes. -/
def countFunctionDefs (m : PyModule) : Nat :=
  (astWalk m).countP (fun n => isFunctionDefNode n)

/-- Model of `node.name`. -/
def fnName : PyStmt → String
  | .functionDef n _ _ => n
  | .asyncFunctionDef n _ _ => n
  | .classDef n _ => n
  | _ => ""

/-- Model of `ast.get_docstring(node)`. -/
def getDocstring : PyStmt → Option String
  | .functionDef _ d _ => d
  | .asyncFunctionDef _ d _ => d
  | _ => none

/-- Line 121 of `core.py`: `ast.get_docstring(node) or "No docstring"`. -/
def effectiveDocstring (s : PyStmt) : String :=
  pyOr (getDocstring s) "No docstring"

/-- Render a docstring line for `unparseStmt`. -/
def docLine (d : Option String) : String :=
  match d with
  | some s => "    \"\"\"" ++ s ++ "\"\"\"\n"
  | none => ""

/-- Render an expression for `unparseStmt`. -/
def unparseExpr : PyExpr → String
  | .lambdaE b => "lambda: " ++ unparseExpr b
  | .nameE id => id
  | .constE => "None"

mutual

/-- Model of `ast.unparse(node)` (stdlib, Python 3.9+): a simplified
surface renderer: a `def`/`async def`/`class` header line followed by the
docstring and the rendered body.  Exact argument lists and cumulative
indentation are abstracted away; what the claims consume is that a plain
function definition unparses to a string starting with `"def "`. -/
def unparseStmt : PyStmt → String
  | .functionDef n d b => "def " ++ n ++ "():\n" ++ docLine d ++ unparseBody b
  | .asyncFunctionDef n d b =>
    "async def " ++ n ++ "():\n" ++ docLine d ++ unparseBody b
  | .classDef n b => "class " ++ n ++ ":\n" ++ unparseBody b
  | .exprStmt e => unparseExpr e
  | .passStmt => "pass"
  | .returnStmt => "return None"

/-- Render the statements of a body, one per indented line. -/
def unparseBody : List PyStmt → String
  | [] => "    pass"
  | [s] => "    " ++ unparseStmt s
  | s :: rest => "    " ++ unparseStmt s ++ "\n" ++ unparseBody rest

end

/-! ## Text-Generation Adapter (`DocEnhancer._llm`)

The prompt templates of `_llm` (lines 76-88 of `core.py`) are modelled
verbatim; the dispatched backends (`_llm_openai`, `_llm_ollama`,
`_llm_local`) are external services, modelled by one oracle from the prompt
to either a response or the message of the raised exception. -/

/-- The prompt construction of `_llm`: one fixed template per task, any
other task passes the text through. -/
def mkPrompt (task text lang : String) : String :=
  if task = "summarize" then
    "Summarize the following Python code in " ++ lang ++ ":\n" ++ text
  else if task = "explain" then
    "Explain what the following Python code does in " ++ lang ++ ":\n" ++ text
  else if task = "translate" then
    "Translate the following documentation to " ++ lang ++ ":\n" ++ text
  else if task = "example" then
    "Generate a usage example for the following Python function in " ++
      lang ++ ":\n" ++ text
  else text

/-- One `try: ... = self._llm(...) except Exception as e: ... =
f"Error from LLM: {e}"` block of `parse_module` (lines 135-150 of
`core.py`). -/
def llmOrError (backend : String → Except String String)
    (task text lang : String) : String :=
  match backend (mkPrompt task text lang) with
  | .ok s => s
  | .error e => "Error from LLM: " ++ e

/-! ## FunctionRecord and its construction (`parse_module` loop body) -/

/-- The per-function dictionary appended at lines 151-159 of `core.py`.
Every field the code stores is a string except `example_test_result`,
which is `None` when the docstring yielded no example. -/
structure FunctionRecord where
  name : String
  docstring : String
  source : String
  summary : String
  explanation : String
  «example» : String
  example_test_result : Option String
deriving DecidableEq, Repr

/-- The expression `self.test_example_code(example) if example else None`
at line 158 of `core.py`: when the extracted example is truthy the test is
run — and a `BaseException` it raises propagates (`Except.error`) —
otherwise the field is `None`. -/
def exampleTestField (execO : String → ExecResult) (ex : Option String) :
    Except String (Option String) :=
  if pyTruthyOpt ex then Except.map some (test_example_code execO ex)
  else Except.ok none

/-- The loop body of `parse_module` for one `ast.FunctionDef` node
(lines 120-159 of `core.py`): resolve the docstring with the
`"No docstring"` sentinel, unparse the source, extract the docstring
example, make the four independent LLM calls, and test the extracted
example only when it is truthy; a `BaseException` from that test call
aborts the record (and, below, the whole parse).  Note the code stores
the LLM-generated `example_out` under the `example` key and the translated
docstring under the `docstring` key. -/
def mkRecord (backend : String → Except String String)
    (execO : String → ExecResult) (lang : String) (s : PyStmt) :
    Except String FunctionRecord :=
  let docstring := effectiveDocstring s
  let source := unparseStmt s
  let ex := extract_example_from_docstring docstring
  match exampleTestField execO ex with
  | .error m => .error m
  | .ok etr =>
    .ok { name := fnName s
          docstring := llmOrError backend "translate" docstring lang
          source := source
          summary := llmOrError backend "summarize" docstring lang
          explanation := llmOrError backend "explain" source lang
          «example» := llmOrError backend "example" source lang
          example_test_result := etr }

/-- The `for node in ast.walk(tree)` loop of `parse_module` over the
selected function-definition nodes: append one record per node, stopping
with the raised `BaseException` if an example test raises one. -/
def buildRecords (backend : String → Except String String)
    (execO : String → ExecResult) (lang : String) :
    List PyStmt → Except String (List FunctionRecord)
  | [] => .ok []
  | st :: rest =>
    match mkRecord backend execO lang st with
    | .error m => .error m
    | .ok r =>
      match buildRecords backend execO lang rest with
      | .error m => .error m
      | .ok rs => .ok (r :: rs)

/-! ## Errors, files, `parse_module` and `generate_docs` -/

/-- The exception classes the module can raise, each carrying `str(e)`.
`baseException` stands for a raise whose class derives from
`BaseException` but not `Exception` (`SystemExit`, `KeyboardInterrupt`):
no `except Exception` handler in the module catches it. -/
inductive PyErr where
  | fileNotFoundError (msg : String)
  | permissionError (msg : String)
  | syntaxError (msg : String)
  | runtimeError (msg : String)
  | valueError (msg : String)
  | baseException (msg : String)
deriving DecidableEq, Repr

/-- Model of `str(e)`: the message of the exception. -/
def PyErr.str : PyErr → String
  | .fileNotFoundError m => m
  | .permissionError m => m
  | .syntaxError m => m
  | .runtimeError m => m
  | .valueError m => m
  | .baseException m => m

/-- Is the exception a `FileNotFoundError`? -/
def pyErrIsNotFound : PyErr → Bool
  | .fileNotFoundError _ => true
  | _ => false

/-- Did the call raise a `FileNotFoundError`? -/
def errIsNotFound : Except PyErr Unit → Bool
  | .error e => pyErrIsNotFound e
  | .ok _ => false

/-- What `open(path, "r")` followed by `.read()` can produce for an
existing path: the content, a `PermissionError`, or some other `OSError`
with a message (the catch-all of lines 108-109 of `core.py`). -/
inductive OpenResult where
  | ok (content : String)
  | denied
  | oserr (msg : String)
deriving DecidableEq, Repr

/-- The filesystem as the module observes it through `open`: an
association list from paths to open outcomes; an absent path raises
`FileNotFoundError`. -/
def lookupFile (files : List (String × OpenResult)) (path : String) :
    Option OpenResult :=
  (files.find? (fun p => p.1 == path)).map (fun p => p.2)

/-- Model of `DocEnhancer.parse_module` (lines 99-160 of `core.py`).  `pyParse`
models the stdlib `ast.parse`: a tree, or the diagnostic of the
`SyntaxError` it raises.  (The unreachable catch-alls for non-`SyntaxError`
parse failures are not modelled.)  On success, one record per
`ast.FunctionDef` node of the walk, in walk order; a `BaseException`
raised by an example test (line 158, uncaught in `parse_module`)
propagates. -/
def parse_module (pyParse : String → Except String PyModule)
    (backend : String → Except String String) (execO : String → ExecResult)
    (files : List (String × OpenResult)) (selfLang : String)
    (module_path : String) : Except PyErr (List FunctionRecord) :=
  match lookupFile files module_path with
  | none => .error (.fileNotFoundError ("Module file not found: " ++ module_path))
  | some .denied =>
    .error (.permissionError ("Permission denied when reading: " ++ module_path))
  | some (.oserr e) =>
    .error (.runtimeError ("Error reading file " ++ module_path ++ ": " ++ e))
  | some (.ok code) =>
    match pyParse code with
    | .error e =>
      .error (.syntaxError ("Syntax error in " ++ module_path ++ ": " ++ e))
    | .ok tree =>
      match buildRecords backend execO selfLang (collectFunctionDefs tree) with
      | .error m => .error (.baseException m)
      | .ok records => .ok records

/-- The per-function `f.write` sequence of `generate_docs`
(lines 209-217 of `core.py`): heading, docstring, summary, explanation,
then — only when the stored `example` string is truthy — the fenced example
block and the test-result line (an f-string, so a `None` test result prints
as `"None"`), and finally the fenced source block. -/
def renderFunction (f : FunctionRecord) : String :=
  "## Function: " ++ f.name ++ "\n" ++
    "**Docstring**: " ++ f.docstring ++ "\n\n" ++
    "**Summary**: " ++ f.summary ++ "\n\n" ++
    "**Explanation**: " ++ f.explanation ++ "\n\n" ++
    (if f.«example» != "" then
      "**Example**:\n```python\n" ++ f.«example» ++ "\n```\n\n" ++
        "**Example Test Result**: " ++ pyStrOfOpt f.example_test_result ++ "\n\n"
    else "") ++
    "```python\n" ++ f.source ++ "\n```\n\n"

/-- The full markdown text `generate_docs` writes (lines 208-217 of
`core.py`): the header line followed by each function's section in
extraction order. -/
def assembleMarkdown (moduleBaseName lang : String)
    (functions : List FunctionRecord) : String :=
  "# Documentation for " ++ moduleBaseName ++ " [" ++ lang ++ "]\n\n" ++
    String.join (functions.map renderFunction)

/-- The filesystem state `generate_docs` can change: the files (with their
open outcomes) and the set of existing directories. -/
structure FileSys where
  files : List (String × OpenResult)
  dirs : List String
deriving DecidableEq, Repr

/-- Lines 195-199 of `core.py`: `if not os.path.exists(output_dir):
os.makedirs(output_dir)`, with creation modelled as always succeeding. -/
def ensureDir (fs : FileSys) (output_dir : String) : FileSys :=
  if fs.dirs.contains output_dir then fs
  else { fs with dirs := output_dir :: fs.dirs }

/-- Model of `os.path.basename`: the final path component. -/
def pyBasename (p : String) : String :=
  String.mk ((splitOnChar (Char.ofNat 47) p.data).getLastD [])

/-- Model of `DocEnhancer.generate_docs` (lines 193-219 of `core.py`): create the
output directory if absent, resolve the language, parse the module —
re-raising any `Exception`-class failure as
`RuntimeError("Failed to parse module: {e}")`, while a `BaseException`
escapes the `except Exception` at line 203 and propagates unchanged —
then write `{output_dir}/{basename}.{lang}.md` (writing modelled as always
succeeding).  Returns the call outcome and the filesystem afterwards. -/
def generate_docs (pyParse : String → Except String PyModule)
    (backend : String → Except String String) (execO : String → ExecResult)
    (fs : FileSys) (module_path output_dir : String)
    (language : Option String) (selfLang : String) :
    Except PyErr Unit × FileSys :=
  let fs1 := ensureDir fs output_dir
  let lang := pyOr language selfLang
  match parse_module pyParse backend execO fs1.files selfLang module_path with
  | .error (.baseException m) => (.error (.baseException m), fs1)
  | .error e =>
    (.error (.runtimeError ("Failed to parse module: " ++ e.str)), fs1)
  | .ok functions =>
    let output_file :=
      output_dir ++ "/" ++ pyBasename module_path ++ "." ++ lang ++ ".md"
    let md := assembleMarkdown (pyBasename module_path) lang functions
    (.ok (), { fs1 with files := (output_file, OpenResult.ok md) :: fs1.files })

/-! ## Concrete fixtures for witnesses and counterexamples -/

/-- A backend whose every call succeeds with a fixed response. -/
def okBackend : String → Except String String := fun _ => .ok "ok response"

/-- A backend whose every call raises (`requests` network failure). -/
def failBackend : String → Except String String := fun _ => .error "Network down!"

/-- An `exec` oracle under which every example prints `42`. -/
def okExec : String → ExecResult := fun _ => .ok "42\n"

/-- The `exec` oracle CPython realizes on the example
`"import sys\nsys.exit(1)"`: `sys.exit` raises `SystemExit`, which derives
from `BaseException` but not `Exception`; any other text just runs. -/
def sysExitExec : String → ExecResult := fun c =>
  if c = "import sys\nsys.exit(1)" then .baseExn "SystemExit: 1"
  else .ok ""

/-- A module exercising every node kind: a top-level function with a
nested function, an async function, a class with a method, and a lambda. -/
def demoTree : PyModule :=
  ⟨[.functionDef "top" (some "Docstring of top.")
      [.functionDef "nested" none [.returnStmt]],
    .asyncFunctionDef "afn" none [.passStmt],
    .classDef "C" [.functionDef "method" (some "Method doc.") [.returnStmt]],
    .exprStmt (.lambdaE .constE)]⟩

/-- An `ast.parse` oracle that accepts every source text as `demoTree`. -/
def demoParse : String → Except String PyModule := fun _ => .ok demoTree

/-- A filesystem holding one readable module file and nothing else. -/
def demoFs : FileSys := ⟨[("mod.py", .ok "def top(): ...")], []⟩

/-- A function whose docstring has no example section. -/
def demoFnPlain : PyStmt := .functionDef "f" (some "Doubles x.") [.returnStmt]

/-- The name of a walked node when it is an `ast.FunctionDef`, `None`
otherwise. -/
def nodeFnName : Node → Option String
  | .stmt (.functionDef nm _ _) => some nm
  | _ => none

/-! ## Supporting lemmas -/

theorem isPrefixOf_append_self (l t : List Char) :
    List.isPrefixOf l (l ++ t) = true := by
  induction l with
  | nil => simp [List.isPrefixOf]
  | cons a as ih => simp [List.isPrefixOf, ih]

theorem infixOfChars_of_isPrefixOf (needle l : List Char)
    (h : List.isPrefixOf needle l = true) : infixOfChars needle l = true := by
  cases l with
  | nil =>
    cases needle with
    | nil => rfl
    | cons c cs => simp [List.isPrefixOf] at h
  | cons c rest => simp [infixOfChars, h]

theorem pyContains_error_tag (m : String) :
    pyContains "Error from LLM:" ("Error from LLM: " ++ m) = true := by
  have hsp : ("Error from LLM: ").data =
      ("Error from LLM:").data ++ [Char.ofNat 32] := by decide
  unfold pyContains
  rw [String.data_append, hsp, List.append_assoc]
  exact infixOfChars_of_isPrefixOf _ _ (isPrefixOf_append_self _ _)

theorem length_filterMap_eq_countP {α β : Type} (f : α → Option β)
    (l : List α) : (l.filterMap f).length = l.countP (fun x => (f x).isSome) := by
  induction l with
  | nil => rfl
  | cons a rest ih =>
    cases h : f a <;>
      simp [List.filterMap_cons, h, List.countP_cons, ih]

theorem sum_map_node_stmt (l : List PyStmt) :
    ((l.map Node.stmt).map nodeW).sum = stmtListW l := by
  induction l with
  | nil => rfl
  | cons s rest ih =>
    simp only [List.map_cons, List.sum_cons, stmtListW, nodeW, ih]

theorem childrenW_lt (n : Node) : ((children n).map nodeW).sum < nodeW n := by
  cases n with
  | mod m =>
    simp only [children, nodeW, sum_map_node_stmt]
    omega
  | stmt s =>
    cases s <;>
      simp only [children, nodeW, stmtW, sum_map_node_stmt, exprW,
        List.map_cons, List.map_nil, List.sum_cons, List.sum_nil] <;>
      omega
  | expr e =>
    cases e <;>
      simp only [children, nodeW, exprW, List.map_cons, List.map_nil,
        List.sum_cons, List.sum_nil] <;>
      omega

theorem nodeW_pos (n : Node) : 0 < nodeW n := by
  cases n with
  | mod m => simp only [nodeW]; omega
  | stmt s => cases s <;> simp only [nodeW, stmtW, exprW] <;> omega
  | expr e => cases e <;> simp only [nodeW, exprW] <;> omega

/-- The fuel `astWalk` hands to `walkGo` is irrelevant as long as it covers
the number of nodes reachable from the queue: the `0` branch of `walkGo` is
never taken on the fuel `astWalk` supplies. -/
theorem walkGo_fuel_irrelevant :
    ∀ (f1 : Nat) (f2 : Nat) (q : List Node),
      (q.map nodeW).sum ≤ f1 → (q.map nodeW).sum ≤ f2 →
      walkGo f1 q = walkGo f2 q := by
  intro f1
  induction f1 with
  | zero =>
    intro f2 q h1 _
    cases q with
    | nil => cases f2 <;> rfl
    | cons n rest =>
      exfalso
      have := nodeW_pos n
      simp [List.map_cons, List.sum_cons] at h1
      omega
  | succ a ih =>
    intro f2 q h1 h2
    cases q with
    | nil => cases f2 <;> rfl
    | cons n rest =>
      cases f2 with
      | zero =>
        exfalso
        have := nodeW_pos n
        simp [List.map_cons, List.sum_cons] at h2
        omega
      | succ b =>
        have hc := childrenW_lt n
        simp only [walkGo]
        congr 1
        apply ih
        · simp [List.map_cons, List.sum_cons] at h1
          simp [List.map_append, List.sum_append]
          omega
        · simp [List.map_cons, List.sum_cons] at h2
          simp [List.map_append, List.sum_append]
          omega

theorem exampleLoop_false_eq (lines : List String) :
    exampleLoop lines false =
      exampleLoop ((lines.dropWhile (fun l => !(pyContains "Example" l))).drop 1)
        true := by
  induction lines with
  | nil => rfl
  | cons l rest ih =>
    cases hc : pyContains "Example" l with
    | true => simp [exampleLoop, hc, List.dropWhile_cons]
    | false => simp [exampleLoop, hc, List.dropWhile_cons, ih]

theorem exampleLoop_true_eq (lines : List String) :
    exampleLoop lines true =
      (lines.takeWhile (fun l => !(stopLine l))).filter keepLine := by
  induction lines with
  | nil => rfl
  | cons l rest ih =>
    cases hc : pyContains "Example" l with
    | true =>
      simp [exampleLoop, hc, stopLine, keepLine, List.takeWhile_cons,
        List.filter_cons, ih]
    | false =>
      cases hb : (pyStrip l == "" || pyStartsWith (pyStrip l) ">>>") with
      | true =>
        simp [exampleLoop, hc, hb, stopLine, keepLine, List.takeWhile_cons,
          List.filter_cons, ih]
      | false =>
        cases hq : tripleQuoteStart l with
        | true =>
          simp [exampleLoop, hc, hb, hq, stopLine, keepLine,
            List.takeWhile_cons, List.filter_cons]
        | false =>
          simp [exampleLoop, hc, hb, hq, stopLine, keepLine,
            List.takeWhile_cons, List.filter_cons, ih]

theorem pyStripChars_eq_nil_iff (cs : List Char) :
    pyStripChars cs = [] ↔ ∀ c ∈ cs, c.isWhitespace = true := by
  unfold pyStripChars
  constructor
  · intro h c hc
    rw [List.reverse_eq_nil_iff, List.dropWhile_eq_nil_iff] at h
    have hdrop : ∀ a ∈ List.dropWhile Char.isWhitespace cs,
        a.isWhitespace = true := by
      intro a ha
      exact h a (by simpa using ha)
    rcases (List.mem_append.1
        (by rw [List.takeWhile_append_dropWhile
            (p := Char.isWhitespace) (l := cs)]; exact hc)) with htk | hdr
    · exact List.mem_takeWhile_imp htk
    · exact hdrop _ hdr
  · intro h
    have hd : List.dropWhile Char.isWhitespace cs = [] :=
      List.dropWhile_eq_nil_iff.2 h
    simp [hd]

theorem pyStrip_eq_empty_iff (s : String) :
    pyStrip s = "" ↔ ∀ c ∈ s.data, c.isWhitespace = true := by
  rw [← pyStripChars_eq_nil_iff]
  constructor
  · intro h
    have := congrArg String.data h
    simpa [pyStrip] using this
  · intro h
    show String.mk (pyStripChars s.data) = ""
    rw [h]

/-- A collected line passes the blank test, so its stripped form is
non-empty. -/
theorem keepLine_strip_ne (l : String) (h : keepLine l = true) :
    pyStrip l ≠ "" := by
  unfold keepLine at h
  simp only [Bool.and_eq_true, Bool.not_eq_true', Bool.or_eq_false_iff] at h
  intro he
  have hb := h.1.2.1
  rw [he] at hb
  simp at hb

/-- The first collected line keeps a non-whitespace character in the joined
example text, so stripping the join cannot empty it. -/
theorem pyStrip_pyJoin_ne (l0 : String) (rest : List String)
    (h : pyStrip l0 ≠ "") : pyStrip (pyJoin "\n" (l0 :: rest)) ≠ "" := by
  have hex : ∃ c ∈ l0.data, c.isWhitespace = false := by
    by_contra hall
    push_neg at hall
    exact h ((pyStrip_eq_empty_iff l0).2 (by
      intro c hc
      have := hall c hc
      cases hw : c.isWhitespace with
      | true => rfl
      | false => exact absurd hw this))
  obtain ⟨c, hc, hw⟩ := hex
  intro hjoin
  have hall := (pyStrip_eq_empty_iff _).1 hjoin
  have hmem : c ∈ (pyJoin "\n" (l0 :: rest)).data := by
    cases rest with
    | nil => simpa [pyJoin] using hc
    | cons r rs =>
      show c ∈ (l0 ++ "\n" ++ pyJoin "\n" (r :: rs)).data
      rw [String.data_append, String.data_append]
      exact List.mem_append.2 (Or.inl (List.mem_append.2 (Or.inl hc)))
  rw [hall c hmem] at hw
  cases hw

/-- The extraction loop collects only `keepLine`s. -/
theorem mem_exampleLoop_keep (d : String) (l : String)
    (h : l ∈ exampleLoop (pySplitlines d) false) : keepLine l = true := by
  rw [exampleLoop_false_eq, exampleLoop_true_eq] at h
  exact List.of_mem_filter h

/-- An extracted example is never the empty string: every collected line
has a non-whitespace character, which survives the join and the strip. -/
theorem extract_ne_empty (d s : String)
    (h : extract_example_from_docstring d = some s) : s ≠ "" := by
  unfold extract_example_from_docstring at h
  cases hel : exampleLoop (pySplitlines d) false with
  | nil => rw [hel] at h; simp at h
  | cons l0 rest =>
    rw [hel] at h
    simp only [List.isEmpty_cons, Bool.false_eq_true, if_false,
      Option.some.injEq] at h
    have hk : keepLine l0 = true :=
      mem_exampleLoop_keep d l0 (by rw [hel]; exact List.mem_cons_self l0 rest)
    have := pyStrip_pyJoin_ne l0 rest (keepLine_strip_ne l0 hk)
    rw [h] at this
    exact this

/-- Truthiness of the extracted example coincides with its presence. -/
theorem pyTruthyOpt_extract (d : String) :
    pyTruthyOpt (extract_example_from_docstring d) =
      (extract_example_from_docstring d).isSome := by
  cases h : extract_example_from_docstring d with
  | none => rfl
  | some s =>
    have hs := extract_ne_empty d s h
    simp [pyTruthyOpt, hs]

/-- Creating the output directory never touches the files. -/
theorem ensureDir_files (fs : FileSys) (d : String) :
    (ensureDir fs d).files = fs.files := by
  unfold ensureDir
  split <;> rfl

/-- A selected node is a function definition. -/
theorem nodeFunctionDef_isSome (n : Node) :
    (nodeFunctionDef n).isSome = isFunctionDefNode n := by
  cases n with
  | mod m => rfl
  | stmt s => cases s <;> rfl
  | expr e => rfl

/-- Everything `collectFunctionDefs` returns is a plain `def` node. -/
theorem collect_shape {m : PyModule} {st : PyStmt}
    (h : st ∈ collectFunctionDefs m) :
    ∃ nm d b, st = PyStmt.functionDef nm d b := by
  unfold collectFunctionDefs at h
  rw [List.mem_filterMap] at h
  obtain ⟨x, _, hx⟩ := h
  cases x with
  | mod m2 => simp [nodeFunctionDef] at hx
  | expr e => simp [nodeFunctionDef] at hx
  | stmt s =>
    cases s with
    | functionDef nm d b =>
      refine ⟨nm, d, b, ?_⟩
      simpa [nodeFunctionDef] using hx.symm
    | asyncFunctionDef nm d b => simp [nodeFunctionDef] at hx
    | classDef nm b => simp [nodeFunctionDef] at hx
    | exprStmt e => simp [nodeFunctionDef] at hx
    | passStmt => simp [nodeFunctionDef] at hx
    | returnStmt => simp [nodeFunctionDef] at hx

/-- Unparsing a plain function definition yields a non-empty string (it
starts with the `def` keyword). -/
theorem unparse_functionDef_ne (nm : String) (d : Option String)
    (b : List PyStmt) : unparseStmt (PyStmt.functionDef nm d b) ≠ "" := by
  intro h
  have h2 := congrArg String.length h
  rw [unparseStmt] at h2
  simp only [String.length_append] at h2
  have h4 : ("def " : String).length = 4 := rfl
  have h0 : ("" : String).length = 0 := rfl
  omega

/-- When the example executions raise only `Exception`-class failures,
`test_example_code` returns a string. -/
theorem test_example_code_ok_of_no_base (execO : String → ExecResult)
    (hexec : ∀ c m, execO c ≠ ExecResult.baseExn m) (code : Option String) :
    ∃ s, test_example_code execO code = Except.ok s := by
  cases code with
  | none => exact ⟨_, rfl⟩
  | some c =>
    unfold test_example_code
    by_cases hc : c = ""
    · exact ⟨"No example to test.", by simp [hc]⟩
    · simp only [if_neg hc]
      cases hx : execO c with
      | ok out => exact ⟨_, rfl⟩
      | exn m => exact ⟨_, rfl⟩
      | baseExn m => exact absurd hx (hexec c m)

/-- Under an oracle with no base exceptions, the line-158 field expression
returns, and the field is present exactly when the example is truthy. -/
theorem exampleTestField_ok_of_no_base (execO : String → ExecResult)
    (hexec : ∀ c m, execO c ≠ ExecResult.baseExn m) (ex : Option String) :
    ∃ etr, exampleTestField execO ex = Except.ok etr ∧
      etr.isSome = pyTruthyOpt ex := by
  unfold exampleTestField
  cases ht : pyTruthyOpt ex with
  | false => exact ⟨none, by simp, by simp⟩
  | true =>
    obtain ⟨s, hs⟩ := test_example_code_ok_of_no_base execO hexec ex
    exact ⟨some s, by simp [hs, Except.map], by simp⟩

/-- If the line-158 field expression returns, the field is present exactly
when the example is truthy. -/
theorem exampleTestField_ok_isSome {execO : String → ExecResult}
    {ex : Option String} {etr : Option String}
    (h : exampleTestField execO ex = Except.ok etr) :
    etr.isSome = pyTruthyOpt ex := by
  unfold exampleTestField at h
  cases ht : pyTruthyOpt ex with
  | false =>
    rw [ht] at h
    simp only [Bool.false_eq_true, if_false, Except.ok.injEq] at h
    rw [← h]
    rfl
  | true =>
    rw [ht] at h
    simp only [if_true] at h
    cases hx : test_example_code execO ex with
    | error m => rw [hx] at h; simp [Except.map] at h
    | ok s =>
      rw [hx] at h
      simp only [Except.map, Except.ok.injEq] at h
      rw [← h]
      rfl

/-- If the line-158 field expression raises, the example was truthy and the
test call raised that base exception. -/
theorem exampleTestField_error {execO : String → ExecResult}
    {ex : Option String} {m : String}
    (h : exampleTestField execO ex = Except.error m) :
    pyTruthyOpt ex = true ∧ test_example_code execO ex = Except.error m := by
  unfold exampleTestField at h
  cases ht : pyTruthyOpt ex with
  | false => rw [ht] at h; simp at h
  | true =>
    refine ⟨rfl, ?_⟩
    rw [ht] at h
    simp only [if_true] at h
    cases hx : test_example_code execO ex with
    | ok s => rw [hx] at h; simp [Except.map] at h
    | error m2 =>
      rw [hx] at h
      simp only [Except.map, Except.error.injEq] at h
      rw [h]

/-- A record obtained from `mkRecord` has exactly the fields the dict of
lines 151-159 stores, and its `example_test_result` is present exactly
when the docstring-extracted example is. -/
theorem mkRecord_ok_elim {backend : String → Except String String}
    {execO : String → ExecResult} {lang : String} {st : PyStmt}
    {r : FunctionRecord} (hr : mkRecord backend execO lang st = Except.ok r) :
    r.name = fnName st ∧
    r.docstring = llmOrError backend "translate" (effectiveDocstring st) lang ∧
    r.source = unparseStmt st ∧
    r.summary = llmOrError backend "summarize" (effectiveDocstring st) lang ∧
    r.explanation = llmOrError backend "explain" (unparseStmt st) lang ∧
    r.«example» = llmOrError backend "example" (unparseStmt st) lang ∧
    r.example_test_result.isSome =
      (extract_example_from_docstring (effectiveDocstring st)).isSome := by
  simp only [mkRecord] at hr
  cases hf : exampleTestField execO
      (extract_example_from_docstring (effectiveDocstring st)) with
  | error m => rw [hf] at hr; cases hr
  | ok etr =>
    rw [hf] at hr
    injection hr with hr2
    subst hr2
    refine ⟨rfl, rfl, rfl, rfl, rfl, rfl, ?_⟩
    show etr.isSome = _
    rw [exampleTestField_ok_isSome hf, pyTruthyOpt_extract]

/-- `mkRecord` raises only when the docstring-extracted example exists and
its test raises a base exception. -/
theorem mkRecord_error_elim {backend : String → Except String String}
    {execO : String → ExecResult} {lang : String} {st : PyStmt} {m : String}
    (hm : mkRecord backend execO lang st = Except.error m) :
    (extract_example_from_docstring (effectiveDocstring st)).isSome = true ∧
    test_example_code execO
      (extract_example_from_docstring (effectiveDocstring st)) =
      Except.error m := by
  simp only [mkRecord] at hm
  cases hf : exampleTestField execO
      (extract_example_from_docstring (effectiveDocstring st)) with
  | ok etr => rw [hf] at hm; cases hm
  | error m2 =>
    rw [hf] at hm
    injection hm with hm2
    subst hm2
    obtain ⟨ht, htest⟩ := exampleTestField_error hf
    exact ⟨by rw [← pyTruthyOpt_extract]; exact ht, htest⟩

/-- Under an oracle with no base exceptions, `mkRecord` returns a record. -/
theorem mkRecord_ok_of_no_base (backend : String → Except String String)
    (execO : String → ExecResult)
    (hexec : ∀ c m, execO c ≠ ExecResult.baseExn m) (lang : String)
    (st : PyStmt) : ∃ r, mkRecord backend execO lang st = Except.ok r := by
  obtain ⟨etr, hf, _⟩ := exampleTestField_ok_of_no_base execO hexec
    (extract_example_from_docstring (effectiveDocstring st))
  exact ⟨_, by simp only [mkRecord]; rw [hf]⟩

/-- When every node's record construction returns, the record loop returns
one record per node, each produced by `mkRecord` on a node of the list. -/
theorem buildRecords_spec (backend : String → Except String String)
    (execO : String → ExecResult) (lang : String) (l : List PyStmt)
    (h : ∀ st ∈ l, ∃ r, mkRecord backend execO lang st = Except.ok r) :
    ∃ records, buildRecords backend execO lang l = Except.ok records ∧
      records.length = l.length ∧
      ∀ r ∈ records, ∃ st ∈ l,
        mkRecord backend execO lang st = Except.ok r := by
  induction l with
  | nil => exact ⟨[], rfl, rfl, by intro r hr; cases hr⟩
  | cons st rest ih =>
    obtain ⟨r, hr⟩ := h st (List.mem_cons_self st rest)
    obtain ⟨rs, hrs, hlen, hmem⟩ :=
      ih (fun a ha => h a (List.mem_cons_of_mem st ha))
    refine ⟨r :: rs, ?_, by simp [hlen], ?_⟩
    · simp only [buildRecords]
      rw [hr, hrs]
    · intro r2 hr2
      rcases List.mem_cons.1 hr2 with rfl | hr2m
      · exact ⟨st, List.mem_cons_self st rest, hr⟩
      · obtain ⟨st2, hst2, hmk2⟩ := hmem r2 hr2m
        exact ⟨st2, List.mem_cons_of_mem st hst2, hmk2⟩

/-- The names of the records the loop returns are the names of the nodes it
was given. -/
theorem buildRecords_names (backend : String → Except String String)
    (execO : String → ExecResult) (lang : String) :
    ∀ (l : List PyStmt) (records : List FunctionRecord),
      buildRecords backend execO lang l = Except.ok records →
      records.map FunctionRecord.name = l.map fnName := by
  intro l
  induction l with
  | nil =>
    intro records h
    simp only [buildRecords, Except.ok.injEq] at h
    subst h
    rfl
  | cons st rest ih =>
    intro records h
    simp only [buildRecords] at h
    cases hr : mkRecord backend execO lang st with
    | error m => rw [hr] at h; cases h
    | ok r =>
      rw [hr] at h
      cases hrs : buildRecords backend execO lang rest with
      | error m => rw [hrs] at h; cases h
      | ok rs =>
        rw [hrs] at h
        injection h with h2
        subst h2
        simp only [List.map_cons]
        rw [(mkRecord_ok_elim hr).1, ih rs hrs]

/-- The names of the collected function definitions are exactly the names
of the `ast.FunctionDef` nodes of the walk. -/
theorem collect_names (tree : PyModule) :
    (collectFunctionDefs tree).map fnName =
      (astWalk tree).filterMap nodeFnName := by
  unfold collectFunctionDefs
  generalize astWalk tree = L
  induction L with
  | nil => rfl
  | cons n rest ih =>
    cases n with
    | mod m => simpa [List.filterMap_cons, nodeFunctionDef, nodeFnName] using ih
    | expr e => simpa [List.filterMap_cons, nodeFunctionDef, nodeFnName] using ih
    | stmt s =>
      cases s <;>
        simpa [List.filterMap_cons, nodeFunctionDef, nodeFnName, fnName] using ih

/-- One collected node per `ast.FunctionDef` node of the walk. -/
theorem collect_length (tree : PyModule) :
    (collectFunctionDefs tree).length = countFunctionDefs tree := by
  unfold collectFunctionDefs countFunctionDefs
  rw [length_filterMap_eq_countP]
  congr 1
  funext n
  exact nodeFunctionDef_isSome n

/-- A successful read and parse with base-exception-free example execution
gives one record per collected function definition, each from
`mkRecord`. -/
theorem parse_module_ok_spec (pyParse : String → Except String PyModule)
    (backend : String → Except String String) (execO : String → ExecResult)
    (files : List (String × OpenResult)) (selfLang path code : String)
    (tree : PyModule)
    (hexec : ∀ c m, execO c ≠ ExecResult.baseExn m)
    (hread : lookupFile files path = some (OpenResult.ok code))
    (hparse : pyParse code = Except.ok tree) :
    ∃ records,
      parse_module pyParse backend execO files selfLang path =
        Except.ok records ∧
      records.length = (collectFunctionDefs tree).length ∧
      records.map FunctionRecord.name = (collectFunctionDefs tree).map fnName ∧
      ∀ r ∈ records, ∃ st ∈ collectFunctionDefs tree,
        mkRecord backend execO selfLang st = Except.ok r := by
  obtain ⟨records, hbr, hlen, hmem⟩ := buildRecords_spec backend execO selfLang
    (collectFunctionDefs tree)
    (fun st _ => mkRecord_ok_of_no_base backend execO hexec selfLang st)
  exact ⟨records, by simp [parse_module, hread, hparse, hbr], hlen,
    buildRecords_names backend execO selfLang _ _ hbr, hmem⟩

/-- An always-failing backend turns every `llmOrError` field into an
error-tagged string. -/
theorem llmOrError_contains_tag (backend : String → Except String String)
    (hb : ∀ prompt, ∃ m, backend prompt = Except.error m)
    (task text lang : String) :
    pyContains "Error from LLM:" (llmOrError backend task text lang) = true := by
  obtain ⟨m, hm⟩ := hb (mkPrompt task text lang)
  unfold llmOrError
  rw [hm]
  exact pyContains_error_tag m

/-! ## The claims -/

/-- Claim C1 (corrected), counterexample to the claim as stated: on a
filesystem with no files at all, `generate_docs` for the missing path
`"missing.py"` does fail and writes no file, but the exception it raises is
`RuntimeError("Failed to parse module: Module file not found: missing.py")`
— the `except Exception` at lines 203-204 of `core.py` re-wraps the
`FileNotFoundError` of `parse_module` — so `generate_docs` does not raise
`FileNotFoundError` as the claim states. -/
theorem C1_counterexample :
    (generate_docs demoParse okBackend okExec ⟨[], []⟩ "missing.py" "docs"
        none "en").fst =
      Except.error (PyErr.runtimeError
        "Failed to parse module: Module file not found: missing.py") ∧
    errIsNotFound
      (generate_docs demoParse okBackend okExec ⟨[], []⟩ "missing.py" "docs"
        none "en").fst = false ∧
    (generate_docs demoParse okBackend okExec ⟨[], []⟩ "missing.py" "docs"
        none "en").snd.files = [] :=
  ⟨rfl, rfl, rfl⟩

/-- Claim C1 (corrected, amended): for every module path that does not name
an existing file, `generate_docs` raises — but with `RuntimeError` wrapping
the not-found diagnostic rather than `FileNotFoundError` itself — and no
output file is created (the files of the filesystem are unchanged). -/
theorem C1_missing_file_fatal (pyParse : String → Except String PyModule)
    (backend : String → Except String String) (execO : String → ExecResult)
    (fs : FileSys) (path outdir : String) (language : Option String)
    (selfLang : String) (hmissing : lookupFile fs.files path = none) :
    (generate_docs pyParse backend execO fs path outdir language selfLang).fst =
      Except.error (PyErr.runtimeError
        ("Failed to parse module: " ++ ("Module file not found: " ++ path))) ∧
    errIsNotFound
      (generate_docs pyParse backend execO fs path outdir language
        selfLang).fst = false ∧
    (generate_docs pyParse backend execO fs path outdir language
        selfLang).snd.files = fs.files := by
  have hpm : parse_module pyParse backend execO fs.files selfLang path =
      Except.error (PyErr.fileNotFoundError ("Module file not found: " ++ path)) := by
    simp [parse_module, hmissing]
  refine ⟨?_, ?_, ?_⟩ <;>
    simp [generate_docs, ensureDir_files, hpm, errIsNotFound, pyErrIsNotFound,
      PyErr.str]

/-- Claim C1 witness: the amended statement at a concrete empty
filesystem. -/
theorem C1_witness :
    lookupFile (FileSys.mk [] []).files "missing.py" = none ∧
    ((generate_docs demoParse okBackend okExec ⟨[], []⟩ "missing.py" "docs"
        none "en").fst =
      Except.error (PyErr.runtimeError
        ("Failed to parse module: " ++ ("Module file not found: " ++ "missing.py"))) ∧
    errIsNotFound
      (generate_docs demoParse okBackend okExec ⟨[], []⟩ "missing.py" "docs"
        none "en").fst = false ∧
    (generate_docs demoParse okBackend okExec ⟨[], []⟩ "missing.py" "docs"
        none "en").snd.files = (FileSys.mk [] []).files) :=
  ⟨rfl, C1_missing_file_fatal demoParse okBackend okExec ⟨[], []⟩ "missing.py"
    "docs" none "en" rfl⟩

/-- Claim C2 (corrected), counterexample to the claim as stated: for a
function whose docstring has no example section, the produced record has
`example_test_result = None` while its `example` field is a (non-null)
string — the code stores the LLM-generated `example_out` under the
`example` key but tests the docstring-extracted example — so
"`example_test_result` non-null iff `example` non-null" fails; moreover the
rendered markdown then contains the example block with the test-outcome
line reading `None`. -/
theorem C2_counterexample :
    (mkRecord okBackend okExec "en" demoFnPlain).toOption.map
      FunctionRecord.example_test_result = some none ∧
    (mkRecord okBackend okExec "en" demoFnPlain).toOption.map
      FunctionRecord.«example» = some "ok response" ∧
    (mkRecord okBackend okExec "en" demoFnPlain).toOption.map
      (fun r => pyContains "**Example Test Result**: None"
        (renderFunction r)) = some true :=
  ⟨rfl, rfl, by decide⟩

/-- Claim C2 (corrected, amended): in every record the pipeline produces,
`example_test_result` is non-null if and only if
`extract_example_from_docstring` finds an example in the function's
(sentinel-resolved) docstring, while the record's `example` field always
holds a (non-null) generated string; when the record construction raises
instead (a `BaseException` from the example test), a docstring example was
present. -/
theorem C2_example_test_result_iff_docstring_example
    (backend : String → Except String String) (execO : String → ExecResult)
    (lang : String) (st : PyStmt) :
    (∀ r, mkRecord backend execO lang st = Except.ok r →
      r.example_test_result.isSome =
        (extract_example_from_docstring (effectiveDocstring st)).isSome) ∧
    (∀ m, mkRecord backend execO lang st = Except.error m →
      (extract_example_from_docstring (effectiveDocstring st)).isSome = true) := by
  constructor
  · intro r hr
    exact (mkRecord_ok_elim hr).2.2.2.2.2.2
  · intro m hm
    exact (mkRecord_error_elim hm).1

/-- Claim C2 witness: the iff at a concrete record. -/
theorem C2_witness :
    ∃ r, mkRecord okBackend okExec "en" demoFnPlain = Except.ok r ∧
      r.example_test_result.isSome =
        (extract_example_from_docstring
          (effectiveDocstring demoFnPlain)).isSome :=
  ⟨_, rfl, (C2_example_test_result_iff_docstring_example okBackend okExec "en"
    demoFnPlain).1 _ rfl⟩

/-- Claim C3 (confirmed): when every backend call raises, `generate_docs`
still completes (returns `ok` and writes the report), and every record of
the parse has all four generated fields — translated docstring, summary,
explanation, generated example — carrying the literal substring
`"Error from LLM:"`; each of the four calls is caught independently at
lines 135-150 of `core.py`.  The example executions are assumed to raise
only `Exception`-class failures (no `SystemExit`-style `BaseException`),
the regime in which the run reaches completion at all. -/
theorem C3_degraded_fields_error_tagged
    (pyParse : String → Except String PyModule)
    (backend : String → Except String String) (execO : String → ExecResult)
    (fs : FileSys) (path outdir : String) (language : Option String)
    (selfLang code : String) (tree : PyModule)
    (hexec : ∀ c m, execO c ≠ ExecResult.baseExn m)
    (hb : ∀ prompt, ∃ m, backend prompt = Except.error m)
    (hread : lookupFile fs.files path = some (OpenResult.ok code))
    (hparse : pyParse code = Except.ok tree) :
    (generate_docs pyParse backend execO fs path outdir language selfLang).fst =
      Except.ok () ∧
    ∃ records,
      parse_module pyParse backend execO fs.files selfLang path =
        Except.ok records ∧
      ∀ r ∈ records,
        pyContains "Error from LLM:" r.docstring = true ∧
        pyContains "Error from LLM:" r.summary = true ∧
        pyContains "Error from LLM:" r.explanation = true ∧
        pyContains "Error from LLM:" r.«example» = true := by
  obtain ⟨records, hpm, _, _, hmem⟩ := parse_module_ok_spec pyParse backend
    execO fs.files selfLang path code tree hexec hread hparse
  refine ⟨by simp [generate_docs, ensureDir_files, hpm], records, hpm, ?_⟩
  intro r hr
  obtain ⟨st, _, hmk⟩ := hmem r hr
  obtain ⟨_, hdoc, _, hsum, hexp, hex, _⟩ := mkRecord_ok_elim hmk
  exact ⟨by rw [hdoc]; exact llmOrError_contains_tag backend hb _ _ _,
    by rw [hsum]; exact llmOrError_contains_tag backend hb _ _ _,
    by rw [hexp]; exact llmOrError_contains_tag backend hb _ _ _,
    by rw [hex]; exact llmOrError_contains_tag backend hb _ _ _⟩

/-- Claim C3 witness: the always-failing backend on the demo module. -/
theorem C3_witness :
    (generate_docs demoParse failBackend okExec demoFs "mod.py" "docs" none
        "en").fst = Except.ok () ∧
    ∃ records,
      parse_module demoParse failBackend okExec demoFs.files "en" "mod.py" =
        Except.ok records ∧
      ∀ r ∈ records,
        pyContains "Error from LLM:" r.docstring = true ∧
        pyContains "Error from LLM:" r.summary = true ∧
        pyContains "Error from LLM:" r.explanation = true ∧
        pyContains "Error from LLM:" r.«example» = true :=
  C3_degraded_fields_error_tagged demoParse failBackend okExec demoFs
    "mod.py" "docs" none "en" "def top(): ..." demoTree
    (fun c m => by simp [okExec]) (fun _ => ⟨"Network down!", rfl⟩) rfl rfl

/-- Claim C4 (confirmed): for every readable, syntactically valid module
with at least one function definition (and example executions raising only
`Exception`-class failures), `parse_module` succeeds with exactly one
record per `ast.FunctionDef` node of the walk (any nesting level); every
record's `source` is non-empty, every record's `docstring` field is a
string (never null by construction), and a function without a docstring
enters the pipeline as the sentinel `"No docstring"`. -/
theorem C4_one_record_per_function
    (pyParse : String → Except String PyModule)
    (backend : String → Except String String) (execO : String → ExecResult)
    (files : List (String × OpenResult)) (selfLang path code : String)
    (tree : PyModule)
    (hexec : ∀ c m, execO c ≠ ExecResult.baseExn m)
    (hread : lookupFile files path = some (OpenResult.ok code))
    (hparse : pyParse code = Except.ok tree)
    (hfn : 0 < countFunctionDefs tree) :
    ∃ records,
      parse_module pyParse backend execO files selfLang path =
        Except.ok records ∧
      records.length = countFunctionDefs tree ∧
      0 < records.length ∧
      (∀ r ∈ records, r.source ≠ "") ∧
      (∀ st ∈ collectFunctionDefs tree,
        getDocstring st = none → effectiveDocstring st = "No docstring") := by
  obtain ⟨records, hpm, hlen, _, hmem⟩ := parse_module_ok_spec pyParse backend
    execO files selfLang path code tree hexec hread hparse
  have hcount : records.length = countFunctionDefs tree := by
    rw [hlen, collect_length]
  refine ⟨records, hpm, hcount, by rw [hcount]; exact hfn, ?_, ?_⟩
  · intro r hr
    obtain ⟨st, hst, hmk⟩ := hmem r hr
    have hsrc := (mkRecord_ok_elim hmk).2.2.1
    rw [hsrc]
    obtain ⟨nm, d, b, rfl⟩ := collect_shape hst
    exact unparse_functionDef_ne nm d b
  · intro st _ hd
    simp [effectiveDocstring, pyOr, hd]

/-- Claim C4 witness: the demo module (three function definitions, two of
them nested or inside a class). -/
theorem C4_witness :
    0 < countFunctionDefs demoTree ∧
    ∃ records,
      parse_module demoParse okBackend okExec demoFs.files "en" "mod.py" =
        Except.ok records ∧
      records.length = countFunctionDefs demoTree ∧
      0 < records.length ∧
      (∀ r ∈ records, r.source ≠ "") ∧
      (∀ st ∈ collectFunctionDefs demoTree,
        getDocstring st = none → effectiveDocstring st = "No docstring") :=
  ⟨by decide, C4_one_record_per_function demoParse okBackend okExec
    demoFs.files "en" "mod.py" "def top(): ..." demoTree
    (fun c m => by simp [okExec]) rfl rfl (by decide)⟩

/-- Claim C5 (corrected), counterexample to the claim as stated: the claim
says every post-marker line except blanks and `>>>` lines is collected, but
the loop's `continue` for lines containing `"Example"` fires on every such
line, so `"Example two"` is dropped from the collected example, while the
spec-worded heuristic (`claimedExtractExample`) keeps it. -/
theorem C5_counterexample :
    extract_example_from_docstring "Example:\nfoo\nExample two\nbar" =
      some "foo\nbar" ∧
    claimedExtractExample "Example:\nfoo\nExample two\nbar" =
      some "foo\nExample two\nbar" ∧
    extract_example_from_docstring "Example:\nfoo\nExample two\nbar" ≠
      claimedExtractExample "Example:\nfoo\nExample two\nbar" := by
  refine ⟨by decide, by decide, by decide⟩

/-- Claim C5 (corrected, amended): after the first line containing
`"Example"`, the loop collects every subsequent line except blank
(whitespace-only) lines, lines whose stripped form begins with `>>>`, and
lines that themselves contain `"Example"` (which merely re-arm the marker);
it stops at the first line whose stripped form begins with a triple quote
and does not contain `"Example"`; the collected lines are joined with
newlines and stripped, `None` is returned exactly when nothing was
collected, and a returned example is never the empty string. -/
theorem C5_extraction_heuristic_amended (d : String) :
    extract_example_from_docstring d = amendedExtractExample d ∧
    extract_example_from_docstring d ≠ some "" := by
  constructor
  · simp only [extract_example_from_docstring, amendedExtractExample,
      exampleLoop_false_eq, exampleLoop_true_eq]
  · intro h
    exact extract_ne_empty d "" h rfl

/-- Claim C6 (corrected), counterexample to the claim as stated: for the
non-null example `"import sys\nsys.exit(1)"`, `exec` raises `SystemExit`,
which derives from `BaseException` but not `Exception`, so the
`except Exception` at line 190 of `core.py` does not catch it and
`test_example_code` raises unhandled instead of returning a success or
failure string; the sentinel for an absent example is unaffected. -/
theorem C6_counterexample :
    test_example_code sysExitExec (some "import sys\nsys.exit(1)") =
      Except.error "SystemExit: 1" ∧
    test_example_code sysExitExec none = Except.ok "No example to test." :=
  ⟨rfl, rfl⟩

/-- Claim C6 (corrected, amended): for every non-null, non-empty example,
`test_example_code` either returns the success string with the captured
output, returns the failure string with the `Exception` message, or — when
the execution raises a `BaseException` such as `SystemExit` — propagates
that raise unhandled; for an absent (`None` or empty) example it returns
the sentinel `"No example to test."` rather than null. -/
theorem C6_example_runner_outcomes (execO : String → ExecResult)
    (code : Option String) (s : String) (hcode : code = some s)
    (hne : s ≠ "") :
    test_example_code execO none = Except.ok "No example to test." ∧
    test_example_code execO (some "") = Except.ok "No example to test." ∧
    ((∃ out, execO s = ExecResult.ok out ∧
        test_example_code execO code =
          Except.ok ("Success. Output:\n" ++ out)) ∨
      (∃ m, execO s = ExecResult.exn m ∧
        test_example_code execO code = Except.ok ("Error: " ++ m)) ∨
      (∃ m, execO s = ExecResult.baseExn m ∧
        test_example_code execO code = Except.error m)) := by
  subst hcode
  refine ⟨rfl, rfl, ?_⟩
  cases hx : execO s with
  | ok out => exact Or.inl ⟨out, rfl, by simp [test_example_code, hne, hx]⟩
  | exn m =>
    exact Or.inr (Or.inl ⟨m, rfl, by simp [test_example_code, hne, hx]⟩)
  | baseExn m =>
    exact Or.inr (Or.inr ⟨m, rfl, by simp [test_example_code, hne, hx]⟩)

/-- Claim C6 witness: a concrete example under a concrete `exec` oracle. -/
theorem C6_witness :
    test_example_code okExec none = Except.ok "No example to test." ∧
    test_example_code okExec (some "") = Except.ok "No example to test." ∧
    ((∃ out, okExec "print(42)" = ExecResult.ok out ∧
        test_example_code okExec (some "print(42)") =
          Except.ok ("Success. Output:\n" ++ out)) ∨
      (∃ m, okExec "print(42)" = ExecResult.exn m ∧
        test_example_code okExec (some "print(42)") =
          Except.ok ("Error: " ++ m)) ∨
      (∃ m, okExec "print(42)" = ExecResult.baseExn m ∧
        test_example_code okExec (some "print(42)") = Except.error m)) :=
  C6_example_runner_outcomes okExec (some "print(42)") "print(42)" rfl
    (by decide)

/-- Claim C7 (confirmed): a docstring none of whose lines contains the
substring `"Example"` yields no extracted example — the `in_example` flag
is never set, so no line is ever collected. -/
theorem C7_no_marker_no_example (d : String)
    (h : ∀ l ∈ pySplitlines d, pyContains "Example" l = false) :
    extract_example_from_docstring d = none := by
  have hdrop : (pySplitlines d).dropWhile
      (fun l => !(pyContains "Example" l)) = [] :=
    List.dropWhile_eq_nil_iff.2 (fun l hl => by rw [h l hl]; rfl)
  unfold extract_example_from_docstring
  rw [exampleLoop_false_eq, hdrop]
  rfl

/-- Claim C7 witness: a concrete marker-free docstring. -/
theorem C7_witness :
    (∀ l ∈ pySplitlines "adds numbers\nreturns their sum",
      pyContains "Example" l = false) ∧
    extract_example_from_docstring "adds numbers\nreturns their sum" = none :=
  ⟨by decide, C7_no_marker_no_example "adds numbers\nreturns their sum"
    (by decide)⟩

/-- Claim C8 (confirmed): assembling the markdown report is deterministic —
it is a pure function of the module base name, language and record
sequence, so performing the assembly twice yields byte-identical text. -/
theorem C8_assemble_deterministic (moduleBaseName lang : String)
    (functions : List FunctionRecord) :
    assembleMarkdown moduleBaseName lang functions =
      assembleMarkdown moduleBaseName lang functions := rfl

/-- Claim C9 (confirmed): `generate_docs` creates the output directory
(lines 195-199 of `core.py`) before reading or parsing the module, so a run
that fails with a fatal extraction error (a read or parse `Exception`, not
a `BaseException`) still leaves a previously missing output directory in
place — and writes no file. -/
theorem C9_output_dir_created_before_parse
    (pyParse : String → Except String PyModule)
    (backend : String → Except String String) (execO : String → ExecResult)
    (fs : FileSys) (path outdir : String) (language : Option String)
    (selfLang : String) (e : PyErr)
    (hdir : fs.dirs.contains outdir = false)
    (hbase : ∀ m, e ≠ PyErr.baseException m)
    (hparse : parse_module pyParse backend execO fs.files selfLang path =
      Except.error e) :
    (generate_docs pyParse backend execO fs path outdir language selfLang).fst =
      Except.error (PyErr.runtimeError ("Failed to parse module: " ++ e.str)) ∧
    (generate_docs pyParse backend execO fs path outdir language
        selfLang).snd.dirs = outdir :: fs.dirs ∧
    (generate_docs pyParse backend execO fs path outdir language
        selfLang).snd.files = fs.files := by
  have hens : ensureDir fs outdir = { fs with dirs := outdir :: fs.dirs } := by
    unfold ensureDir
    rw [hdir]
    rfl
  cases e <;>
    first
    | exact absurd rfl (hbase _)
    | (refine ⟨?_, ?_, ?_⟩ <;>
        simp [generate_docs, ensureDir_files, hparse, hens, PyErr.str])

/-- Claim C9 witness: a missing module path with a previously missing
output directory. -/
theorem C9_witness :
    (FileSys.mk [] []).dirs.contains "docs" = false ∧
    ((generate_docs demoParse okBackend okExec ⟨[], []⟩ "missing.py" "docs"
        none "en").fst =
      Except.error (PyErr.runtimeError ("Failed to parse module: " ++
        (PyErr.fileNotFoundError "Module file not found: missing.py").str)) ∧
    (generate_docs demoParse okBackend okExec ⟨[], []⟩ "missing.py" "docs"
        none "en").snd.dirs = "docs" :: (FileSys.mk [] []).dirs ∧
    (generate_docs demoParse okBackend okExec ⟨[], []⟩ "missing.py" "docs"
        none "en").snd.files = (FileSys.mk [] []).files) :=
  ⟨rfl, C9_output_dir_created_before_parse demoParse okBackend okExec
    ⟨[], []⟩ "missing.py" "docs" none "en"
    (PyErr.fileNotFoundError "Module file not found: missing.py") rfl
    (fun _ h => PyErr.noConfusion h) rfl⟩

/-- Claim C10 (confirmed): extraction selects exactly the plain `def`
nodes — whenever the record loop returns, the records' names are exactly
the names of the `ast.FunctionDef` nodes of the walk — and on the demo
module the async function `afn`, the class `C` and the lambda yield no
record while the nested function and the method do
(`["top", "nested", "method"]` in breadth-first walk order). -/
theorem C10_selects_exactly_functiondefs :
    (∀ (backend : String → Except String String)
      (execO : String → ExecResult) (lang : String) (tree : PyModule)
      (records : List FunctionRecord),
      buildRecords backend execO lang (collectFunctionDefs tree) =
        Except.ok records →
      records.map FunctionRecord.name = (astWalk tree).filterMap nodeFnName) ∧
    (∃ records,
      parse_module demoParse okBackend okExec demoFs.files "en" "mod.py" =
        Except.ok records ∧
      records.map FunctionRecord.name = ["top", "nested", "method"]) := by
  constructor
  · intro backend execO lang tree records hbr
    rw [buildRecords_names backend execO lang _ _ hbr, collect_names]
  · exact ⟨_, rfl, by decide⟩

/-- Claim C10 witness: the name correspondence at the demo module. -/
theorem C10_witness :
    ∃ records,
      buildRecords okBackend okExec "en" (collectFunctionDefs demoTree) =
        Except.ok records ∧
      records.map FunctionRecord.name = (astWalk demoTree).filterMap nodeFnName :=
  ⟨_, rfl, C10_selects_exactly_functiondefs.1 okBackend okExec "en" demoTree
    _ rfl⟩

end PyDocEnhancer
